import Mathlib

/-!
Shallow embedding of the Autocare job-lifecycle engine: the job-card status
machine, estimate building and approval (`app/services/job_card_service.py`),
the RFQ / vendor-quote workflow (`app/services/rfq_service.py`,
`app/api/vendor.py`), and payment reconciliation
(`app/services/payment_service.py`, `app/api/webhooks.py`).

Monetary values are embedded as rationals (the source stores Python floats in
`Float` columns; every identity proved here is an identity of the source's
arithmetic expressions, which is exact in either carrier).  Timestamps
(`datetime.utcnow()`) are embedded as an explicit `now : Nat` parameter.
Database sessions are embedded as explicit state passing; an
`HTTPException` raised before any field write is embedded as `Except.error`
(no mutation happens in the source in that case because the session is never
committed).
-/

/-- Job statuses, from `app/models/job_card.py` (`class JobStatus`). -/
inductive JobStatus
  | requested
  | scheduled
  | vehicle_picked
  | in_intake
  | diagnosed
  | awaiting_estimate_approval
  | estimate_approved
  | rfq_sent
  | quotes_received
  | awaiting_parts_approval
  | parts_approved
  | awaiting_payment
  | partially_paid
  | paid
  | parts_ordered
  | parts_received
  | in_service
  | testing
  | ready
  | out_for_delivery
  | delivered
  | closed
  | cancelled
deriving DecidableEq, Repr

/-- The string value of each status, from the enum values in
`app/models/job_card.py` (used in HTTP error details). -/
def JobStatus.val : JobStatus → String
  | .requested => "requested"
  | .scheduled => "scheduled"
  | .vehicle_picked => "vehicle_picked"
  | .in_intake => "in_intake"
  | .diagnosed => "diagnosed"
  | .awaiting_estimate_approval => "awaiting_estimate_approval"
  | .estimate_approved => "estimate_approved"
  | .rfq_sent => "rfq_sent"
  | .quotes_received => "quotes_received"
  | .awaiting_parts_approval => "awaiting_parts_approval"
  | .parts_approved => "parts_approved"
  | .awaiting_payment => "awaiting_payment"
  | .partially_paid => "partially_paid"
  | .paid => "paid"
  | .parts_ordered => "parts_ordered"
  | .parts_received => "parts_received"
  | .in_service => "in_service"
  | .testing => "testing"
  | .ready => "ready"
  | .out_for_delivery => "out_for_delivery"
  | .delivered => "delivered"
  | .closed => "closed"
  | .cancelled => "cancelled"

/-- One estimate line item, from `app/models/job_card.py` (`class EstimateItem`);
`item_type` is a free-form string in the source ("labour", "part", "fee"). -/
structure EstimateItem where
  item_type : String
  description : String
  part_number : Option String
  quantity : ℚ
  unit : Option String
  unit_price : ℚ
  total_price : ℚ
  warranty_months : Option Int
deriving DecidableEq, Repr

/-- The job-card fields read or written by the embedded operations, from
`app/models/job_card.py` (`class JobCard`).  Fields the services never touch
(identity, parties, addresses, notes, feedback) are omitted. -/
structure JobCard where
  status : JobStatus
  labour_total : ℚ
  parts_total : ℚ
  pickup_delivery_fee : ℚ
  tax_amount : ℚ
  discount_amount : ℚ
  estimate_total : ℚ
  grand_total : ℚ
  amount_paid : ℚ
  balance_due : ℚ
  estimate_approved_at : Option Nat
  parts_approved_at : Option Nat
  estimate_items : List EstimateItem
  actual_pickup_time : Option Nat
  actual_delivery_time : Option Nat
  actual_completion_date : Option Nat
  updated_at : Nat
deriving DecidableEq, Repr

/-- A fresh job card as `create_booking` builds it: financial columns take
their model defaults (0), no estimate items, status REQUESTED. -/
def JobCard.booked : JobCard where
  status := .requested
  labour_total := 0
  parts_total := 0
  pickup_delivery_fee := 0
  tax_amount := 0
  discount_amount := 0
  estimate_total := 0
  grand_total := 0
  amount_paid := 0
  balance_due := 0
  estimate_approved_at := none
  parts_approved_at := none
  estimate_items := []
  actual_pickup_time := none
  actual_delivery_time := none
  actual_completion_date := none
  updated_at := 0

/-- An `HTTPException` raised by a service, carrying the HTTP-ish kind and the
`detail` string. -/
inductive ApiError
  | notFound (detail : String)
  | badRequest (detail : String)
deriving DecidableEq, Repr

deriving instance DecidableEq for Except

/-- The static transition adjacency table,
`JobCardService._get_valid_transitions`. -/
def get_valid_transitions : JobStatus → List JobStatus
  | .requested => [.scheduled, .cancelled]
  | .scheduled => [.vehicle_picked, .in_intake, .cancelled]
  | .vehicle_picked => [.in_intake, .cancelled]
  | .in_intake => [.diagnosed, .cancelled]
  | .diagnosed => [.awaiting_estimate_approval, .cancelled]
  | .awaiting_estimate_approval => [.estimate_approved, .cancelled]
  | .estimate_approved => [.rfq_sent, .awaiting_payment, .in_service]
  | .rfq_sent => [.quotes_received, .cancelled]
  | .quotes_received => [.awaiting_parts_approval]
  | .awaiting_parts_approval => [.parts_approved, .cancelled]
  | .parts_approved => [.awaiting_payment]
  | .awaiting_payment => [.partially_paid, .paid, .cancelled]
  | .partially_paid => [.paid, .parts_ordered, .in_service]
  | .paid => [.parts_ordered, .in_service]
  | .parts_ordered => [.parts_received]
  | .parts_received => [.in_service]
  | .in_service => [.testing]
  | .testing => [.ready, .in_service]
  | .ready => [.out_for_delivery, .delivered]
  | .out_for_delivery => [.delivered]
  | .delivered => [.closed]
  | .closed => []
  | .cancelled => []

/-- `JobCardService.update_status`: validates the transition against the
adjacency table, then writes the new status, `updated_at`, and the
status-specific timestamp.  The failure branch raises before any write. -/
def update_status (job : JobCard) (new_status : JobStatus) (now : Nat) :
    Except ApiError JobCard :=
  if new_status ∈ get_valid_transitions job.status then
    let job1 := { job with status := new_status, updated_at := now }
    let job2 :=
      if new_status = JobStatus.vehicle_picked then
        { job1 with actual_pickup_time := some now }
      else if new_status = JobStatus.delivered then
        { job1 with actual_delivery_time := some now }
      else if new_status = JobStatus.closed then
        { job1 with actual_completion_date := some now }
      else job1
    .ok job2
  else
    .error (ApiError.badRequest
      ("Invalid status transition from " ++ job.status.val ++ " to " ++ new_status.val))

/-- One line of an estimate request, `EstimateItemCreate` in
`app/schemas/job_card.py`. -/
structure EstimateItemCreate where
  item_type : String
  description : String
  part_number : Option String
  quantity : ℚ
  unit : Option String
  unit_price : ℚ
  warranty_months : Option Int
deriving DecidableEq, Repr

/-- An estimate request, `EstimateCreate` in `app/schemas/job_card.py`;
`tax_rate` is a VAT percentage (default 5 in the schema). -/
structure EstimateCreate where
  items : List EstimateItemCreate
  pickup_delivery_fee : ℚ
  tax_rate : ℚ
deriving DecidableEq, Repr

/-- The estimate row built for one request line inside
`JobCardService.create_estimate`: `total_price = quantity * unit_price`. -/
def mk_estimate_item (d : EstimateItemCreate) : EstimateItem where
  item_type := d.item_type
  description := d.description
  part_number := d.part_number
  quantity := d.quantity
  unit := d.unit
  unit_price := d.unit_price
  total_price := d.quantity * d.unit_price
  warranty_months := d.warranty_months

/-- `JobCardService.create_estimate`: clears the existing items, inserts the
new ones while accumulating the labour and parts subtotals, recomputes tax and
the totals, and auto-advances DIAGNOSED to AWAITING_ESTIMATE_APPROVAL. -/
def create_estimate (job : JobCard) (data : EstimateCreate) : JobCard :=
  let items := data.items.map mk_estimate_item
  let labour_total :=
    (items.filter (fun i => i.item_type == "labour")).foldl
      (fun s i => s + i.total_price) 0
  let parts_total :=
    (items.filter (fun i => i.item_type == "part")).foldl
      (fun s i => s + i.total_price) 0
  let subtotal := labour_total + parts_total + data.pickup_delivery_fee
  let tax_amount := subtotal * (data.tax_rate / 100)
  let estimate_total := subtotal + tax_amount
  let grand_total := estimate_total - job.discount_amount
  { job with
    estimate_items := items
    labour_total := labour_total
    parts_total := parts_total
    pickup_delivery_fee := data.pickup_delivery_fee
    tax_amount := tax_amount
    estimate_total := estimate_total
    grand_total := grand_total
    balance_due := grand_total - job.amount_paid
    status :=
      if job.status = JobStatus.diagnosed then JobStatus.awaiting_estimate_approval
      else job.status }

/-- `JobCardService.approve_estimate`: guarded on AWAITING_ESTIMATE_APPROVAL;
rejection cancels, approval stamps `estimate_approved_at` and advances
according to whether any item has type "part". -/
def approve_estimate (job : JobCard) (approved : Bool) (now : Nat) :
    Except ApiError JobCard :=
  if job.status ≠ JobStatus.awaiting_estimate_approval then
    .error (ApiError.badRequest "Job is not awaiting estimate approval")
  else if !approved then
    .ok { job with status := JobStatus.cancelled }
  else
    let has_parts := job.estimate_items.any (fun i => i.item_type == "part")
    .ok { job with
      estimate_approved_at := some now
      status :=
        if has_parts then JobStatus.estimate_approved
        else JobStatus.awaiting_payment }

/-- `JobCardService.approve_parts`: guarded on AWAITING_PARTS_APPROVAL;
rejection cancels, approval stamps `parts_approved_at` and advances to
AWAITING_PAYMENT. -/
def approve_parts (job : JobCard) (approved : Bool) (now : Nat) :
    Except ApiError JobCard :=
  if job.status ≠ JobStatus.awaiting_parts_approval then
    .error (ApiError.badRequest "Job is not awaiting parts approval")
  else if !approved then
    .ok { job with status := JobStatus.cancelled }
  else
    .ok { job with
      parts_approved_at := some now
      status := JobStatus.awaiting_payment }

/-- Payment statuses, from `app/models/payment.py` (`class PaymentStatus`). -/
inductive PaymentStatus
  | pending
  | processing
  | completed
  | failed
  | cancelled
  | refunded
deriving DecidableEq, Repr

/-- Payment methods, from `app/models/payment.py` (`class PaymentMethod`). -/
inductive PaymentMethod
  | cash
  | card
  | online
  | bank_transfer
  | cheque
  | payment_link
deriving DecidableEq, Repr

/-- Payment types, from `app/models/payment.py` (`class PaymentType`). -/
inductive PaymentType
  | deposit
  | final
  | full
  | balance
  | refund
deriving DecidableEq, Repr

/-- The payment fields the embedded operations read or write, from
`app/models/payment.py` (`class Payment`). -/
structure Payment where
  payment_type : PaymentType
  payment_method : PaymentMethod
  amount : ℚ
  status : PaymentStatus
  collected_by_id : Option Nat
  gateway_transaction_id : Option String
  paid_at : Option Nat
  notes : Option String
deriving DecidableEq, Repr

/-- `PaymentCreate` from `app/schemas/payment.py`, as consumed by
`record_cash_payment`. -/
structure PaymentCreate where
  amount : ℚ
  payment_type : PaymentType
  payment_method : PaymentMethod
  notes : Option String
deriving DecidableEq, Repr

/-- The ledger/status block that appears verbatim in
`PaymentService.record_cash_payment`, `PaymentService.confirm_online_payment`
and the `payment_intent.succeeded` branch of `stripe_webhook`:
`job.amount_paid += amount; job.balance_due = job.grand_total -
job.amount_paid; if job.balance_due <= 0: job.status = PAID; elif job.status
== AWAITING_PAYMENT: job.status = PARTIALLY_PAID`. -/
def apply_payment_to_job (job : JobCard) (amount : ℚ) : JobCard :=
  let amount_paid := job.amount_paid + amount
  let balance_due := job.grand_total - amount_paid
  { job with
    amount_paid := amount_paid
    balance_due := balance_due
    status :=
      if balance_due ≤ 0 then JobStatus.paid
      else if job.status = JobStatus.awaiting_payment then JobStatus.partially_paid
      else job.status }

/-- `PaymentService.record_cash_payment`: creates an immediately COMPLETED
payment and applies it to the job ledger.  The source performs no job-status
precondition check. -/
def record_cash_payment (job : JobCard) (user_id : Nat) (data : PaymentCreate)
    (now : Nat) : Payment × JobCard :=
  let payment : Payment :=
    { payment_type := data.payment_type
      payment_method := data.payment_method
      amount := data.amount
      status := PaymentStatus.completed
      collected_by_id := some user_id
      gateway_transaction_id := none
      paid_at := some now
      notes := data.notes }
  (payment, apply_payment_to_job job data.amount)

/-- A payment together with its job card (`payment.job_card` in the source is
a live reference to the same row the service mutates). -/
structure PayState where
  payment : Payment
  job : JobCard
deriving DecidableEq, Repr

/-- `PaymentService.confirm_online_payment`: if the payment is not PENDING it
raises `400 "Payment already processed"` before touching anything; otherwise
it completes the payment, stores the gateway transaction id, and applies the
amount to the job ledger. -/
def confirm_online_payment (st : PayState) (transaction_id : Option String)
    (now : Nat) : Except ApiError PayState :=
  if st.payment.status ≠ PaymentStatus.pending then
    .error (ApiError.badRequest "Payment already processed")
  else
    .ok { payment :=
            { st.payment with
              status := PaymentStatus.completed
              gateway_transaction_id := transaction_id
              paid_at := some now }
          job := apply_payment_to_job st.job st.payment.amount }

/-- The `payment_intent.succeeded` branch of `stripe_webhook`
(`app/api/webhooks.py`): it mutates only when the resolved payment is still
PENDING; a duplicate delivery for an already-processed payment is a no-op that
still answers `{"status": "ok"}`. -/
def stripe_webhook_payment_succeeded (st : PayState) (gateway_id : Option String)
    (now : Nat) : PayState :=
  if st.payment.status = PaymentStatus.pending then
    { payment :=
        { st.payment with
          status := PaymentStatus.completed
          gateway_transaction_id := gateway_id
          paid_at := some now }
      job := apply_payment_to_job st.job st.payment.amount }
  else st

/-- RFQ statuses, from `app/models/rfq.py` (`class RFQStatus`). -/
inductive RFQStatus
  | draft
  | pending
  | sent
  | quotes_received
  | quote_selected
  | ordered
  | cancelled
deriving DecidableEq, Repr

/-- Vendor-quote statuses, from `app/models/rfq.py` (`class QuoteStatus`). -/
inductive QuoteStatus
  | pending
  | submitted
  | selected
  | rejected
  | expired
deriving DecidableEq, Repr

/-- The vendor-quote fields the embedded operations read or write, from
`app/models/rfq.py` (`class VendorQuote`).  `vendor_rating` carries
`float(quote.vendor.vendor_rating or 0)` of the owning vendor, the value
`auto_select_quote` reads through the relationship. -/
structure VendorQuote where
  id : Nat
  vendor_id : Nat
  vendor_rating : ℚ
  status : QuoteStatus
  quote_number : Option String
  subtotal : ℚ
  tax_amount : ℚ
  total_amount : ℚ
  delivery_days : Int
  warranty_months : Int
  submitted_at : Option Nat
deriving DecidableEq, Repr

/-- The RFQ fields the embedded operations read or write, from
`app/models/rfq.py` (`class RFQ`), with its owned quotes inlined. -/
structure RFQ where
  status : RFQStatus
  quotes : List VendorQuote
  quote_deadline : Option Nat
  selection_rule : String
  max_delivery_days : Int
  selected_quote_id : Option Nat
  selected_at : Option Nat
  selected_by_id : Option Nat
  selection_reason : Option String
deriving DecidableEq, Repr

/-- One quote line, `QuoteLineItem` in `app/schemas/rfq.py` (`total` is
supplied by the vendor, and `submit_quote` sums it as given). -/
structure QuoteLineItem where
  description : String
  quantity : Int
  unit_price : ℚ
  total : ℚ
deriving DecidableEq, Repr

/-- A quote submission, `QuoteSubmit` in `app/schemas/rfq.py`. -/
structure QuoteSubmit where
  quote_number : Option String
  line_items : List QuoteLineItem
  delivery_days : Int
  warranty_months : Int
deriving DecidableEq, Repr

/-- `RFQService.submit_quote`: finds the vendor's placeholder quote, rejects
unless it is PENDING or SUBMITTED, fills it in (5% VAT on the summed line
totals, the source's literal `0.05`), marks it SUBMITTED, and — when no quote
on the RFQ is left PENDING — advances the RFQ to QUOTES_RECEIVED and the job
from RFQ_SENT to QUOTES_RECEIVED.  The source checks no quote deadline on
this path. -/
def submit_quote (rfq : RFQ) (job : JobCard) (vendor_id : Nat)
    (data : QuoteSubmit) (now : Nat) :
    Except ApiError (VendorQuote × RFQ × JobCard) :=
  match rfq.quotes.find? (fun q => q.vendor_id == vendor_id) with
  | none => .error (ApiError.notFound "Quote not found or not invited")
  | some quote =>
    if quote.status ≠ QuoteStatus.pending ∧ quote.status ≠ QuoteStatus.submitted then
      .error (ApiError.badRequest "Cannot modify this quote")
    else
      let subtotal := data.line_items.foldl (fun s i => s + i.total) 0
      let tax_amount := subtotal * (5 / 100)
      let quote1 :=
        { quote with
          quote_number := data.quote_number
          subtotal := subtotal
          tax_amount := tax_amount
          total_amount := subtotal + tax_amount
          delivery_days := data.delivery_days
          warranty_months := data.warranty_months
          status := QuoteStatus.submitted
          submitted_at := some now }
      let quotes1 := rfq.quotes.map (fun q => if q.vendor_id == vendor_id then quote1 else q)
      let all_submitted := quotes1.all (fun q => q.status ≠ QuoteStatus.pending)
      if all_submitted then
        .ok (quote1,
          { rfq with quotes := quotes1, status := RFQStatus.quotes_received },
          if job.status = JobStatus.rfq_sent then
            { job with status := JobStatus.quotes_received }
          else job)
      else
        .ok (quote1, { rfq with quotes := quotes1 }, job)

/-- One item of the vendor-route quote payload, `QuoteItemCreate` in
`app/api/vendor.py`. -/
structure QuoteItemCreate where
  description : String
  quantity : Int
  unit_price : ℚ
deriving DecidableEq, Repr

/-- The vendor-route quote payload, `QuoteCreate` in `app/api/vendor.py`. -/
structure QuoteCreate where
  items : List QuoteItemCreate
  delivery_days : Int
  validity_days : Int
  total_amount : ℚ
deriving DecidableEq, Repr

/-- The `POST /rfqs/{rfq_id}/quote` handler in `app/api/vendor.py`: unlike
`RFQService.submit_quote` it rejects with `400 "RFQ deadline has passed"` when
`rfq.quote_deadline < now`, refuses a second quote from the same vendor, and
appends a fresh SUBMITTED quote (`subtotal = total_amount`, no tax stored). -/
def api_vendor_submit_quote (rfq : RFQ) (vendor_id : Nat) (vendor_rating : ℚ)
    (new_id : Nat) (data : QuoteCreate) (now : Nat) : Except ApiError RFQ :=
  if rfq.status ≠ RFQStatus.sent ∧ rfq.status ≠ RFQStatus.quotes_received then
    .error (ApiError.badRequest "RFQ is no longer accepting quotes")
  else if (match rfq.quote_deadline with
           | some d => decide (d < now)
           | none => false) then
    .error (ApiError.badRequest "RFQ deadline has passed")
  else if (rfq.quotes.find? (fun q => q.vendor_id == vendor_id)).isSome then
    .error (ApiError.badRequest "You have already submitted a quote")
  else
    .ok { rfq with
      quotes := rfq.quotes ++
        [{ id := new_id
           vendor_id := vendor_id
           vendor_rating := vendor_rating
           status := QuoteStatus.submitted
           quote_number := none
           subtotal := data.total_amount
           tax_amount := 0
           total_amount := data.total_amount
           delivery_days := data.delivery_days
           warranty_months := 0
           submitted_at := some now }] }

/-- `RFQService.select_quote`: guarded on RFQ status QUOTES_RECEIVED or SENT
and on the target quote being SUBMITTED; marks the winner SELECTED and every
other SUBMITTED quote REJECTED, records the selection on the RFQ, copies the
winning total into `job.parts_total`, recomputes `grand_total`/`balance_due`,
and moves the job to AWAITING_PARTS_APPROVAL. -/
def select_quote (rfq : RFQ) (job : JobCard) (quote_id : Nat) (user_id : Nat)
    (reason : Option String) (now : Nat) : Except ApiError (RFQ × JobCard) :=
  if rfq.status ≠ RFQStatus.quotes_received ∧ rfq.status ≠ RFQStatus.sent then
    .error (ApiError.badRequest "RFQ not ready for selection")
  else
    match rfq.quotes.find?
        (fun q => q.id == quote_id && q.status == QuoteStatus.submitted) with
    | none => .error (ApiError.notFound "Quote not found or not submitted")
    | some selected =>
      let quotes1 := rfq.quotes.map (fun q =>
        if q.id == quote_id then { q with status := QuoteStatus.selected }
        else if q.status == QuoteStatus.submitted then
          { q with status := QuoteStatus.rejected }
        else q)
      let grand_total := job.labour_total + selected.total_amount +
        job.pickup_delivery_fee + job.tax_amount - job.discount_amount
      .ok ({ rfq with
              quotes := quotes1
              selected_quote_id := some quote_id
              selection_reason := reason
              selected_at := some now
              selected_by_id := some user_id
              status := RFQStatus.quote_selected },
           { job with
              parts_total := selected.total_amount
              grand_total := grand_total
              balance_due := grand_total - job.amount_paid
              status := JobStatus.awaiting_parts_approval })

/-- Lexicographic comparison on a pair of rationals, the order Python's tuple
sort keys induce in `RFQService.auto_select_quote`. -/
def pair_le (a b : ℚ × ℚ) : Bool :=
  decide (a.1 < b.1) || (decide (a.1 = b.1) && decide (a.2 ≤ b.2))

/-- Sort key order for `selection_rule == "cheapest_available"`:
`(total_amount, delivery_days)` ascending. -/
def cheapest_le (a b : VendorQuote) : Bool :=
  pair_le (a.total_amount, (a.delivery_days : ℚ)) (b.total_amount, (b.delivery_days : ℚ))

/-- Sort key order for `selection_rule == "fastest"`:
`(delivery_days, total_amount)` ascending. -/
def fastest_le (a b : VendorQuote) : Bool :=
  pair_le ((a.delivery_days : ℚ), a.total_amount) ((b.delivery_days : ℚ), b.total_amount)

/-- Sort key order for `selection_rule == "best_rated"`:
`(-vendor_rating, total_amount)` ascending. -/
def best_rated_le (a b : VendorQuote) : Bool :=
  pair_le (-a.vendor_rating, a.total_amount) (-b.vendor_rating, b.total_amount)

/-- The eligible set in `RFQService.auto_select_quote`: SUBMITTED quotes whose
`delivery_days <= rfq.max_delivery_days`. -/
def valid_quotes (rfq : RFQ) : List VendorQuote :=
  rfq.quotes.filter (fun q =>
    q.status == QuoteStatus.submitted && decide (q.delivery_days ≤ rfq.max_delivery_days))

/-- `RFQService.auto_select_quote`: returns `none` unless the RFQ is in
QUOTES_RECEIVED; filters to the eligible quotes; stably sorts them by the
named policy's key (no sort for an unrecognized rule); returns the head. -/
def auto_select_quote (rfq : RFQ) : Option VendorQuote :=
  if rfq.status ≠ RFQStatus.quotes_received then none
  else
    let valid := valid_quotes rfq
    let sorted :=
      if rfq.selection_rule = "cheapest_available" then valid.mergeSort cheapest_le
      else if rfq.selection_rule = "fastest" then valid.mergeSort fastest_le
      else if rfq.selection_rule = "best_rated" then valid.mergeSort best_rated_le
      else valid
    sorted.head?

/-- The ledger invariant of §8 of the spec: `grand_total == labour_total +
parts_total + delivery_fee + tax_amount − discount_amount` and `balance_due ==
grand_total − amount_paid`. -/
def ledger_inv (job : JobCard) : Prop :=
  job.grand_total = job.labour_total + job.parts_total + job.pickup_delivery_fee +
    job.tax_amount - job.discount_amount ∧
  job.balance_due = job.grand_total - job.amount_paid

instance (job : JobCard) : Decidable (ledger_inv job) := by
  unfold ledger_inv; infer_instance

/-- The strict lexicographic-or-equal order on sort keys that Python's stable
tuple sort realizes: primary component first, ties decided by the secondary
component. -/
def lex_le (a b : ℚ × ℚ) : Prop :=
  a.1 < b.1 ∨ (a.1 = b.1 ∧ a.2 ≤ b.2)

/-- The sort key `auto_select_quote` uses for each recognized selection rule
(`cheapest_available` is also the schema default). -/
def rule_key (rule : String) (q : VendorQuote) : ℚ × ℚ :=
  if rule = "fastest" then ((q.delivery_days : ℚ), q.total_amount)
  else if rule = "best_rated" then (-q.vendor_rating, q.total_amount)
  else (q.total_amount, (q.delivery_days : ℚ))

/-! Concrete inputs for the scenario conjuncts and the witness theorems: the
estimate of the spec's §8 scenario (two labour lines of 150 each plus one
part line of 200, 5% VAT, no delivery fee) and the two-vendor RFQ scenario
(vendor A: 400 total, 3 days; vendor B: 350 total, 5 days). -/

def item_labour1 : EstimateItemCreate where
  item_type := "labour"
  description := "Brake service labour"
  part_number := none
  quantity := 1
  unit := none
  unit_price := 150
  warranty_months := none

def item_labour2 : EstimateItemCreate where
  item_type := "labour"
  description := "Diagnostics labour"
  part_number := none
  quantity := 1
  unit := none
  unit_price := 150
  warranty_months := none

def item_part1 : EstimateItemCreate where
  item_type := "part"
  description := "Brake pads"
  part_number := some "BP-100"
  quantity := 1
  unit := none
  unit_price := 200
  warranty_months := some 6

def estimateW : EstimateCreate where
  items := [item_labour1, item_labour2, item_part1]
  pickup_delivery_fee := 0
  tax_rate := 5

/-- A job diagnosed and ready for its estimate. -/
def jobDiagnosed : JobCard := { JobCard.booked with status := .diagnosed }

/-- The job after the scenario estimate: totals 300 + 200 + 5% VAT = 525. -/
def jobQ : JobCard := create_estimate jobDiagnosed estimateW

/-- Vendor A's quote of the spec's §8 scenario: total 400, 3 days. -/
def qA : VendorQuote where
  id := 1
  vendor_id := 1
  vendor_rating := 4
  status := .submitted
  quote_number := some "QA-1"
  subtotal := 400
  tax_amount := 0
  total_amount := 400
  delivery_days := 3
  warranty_months := 6
  submitted_at := some 10

/-- Vendor B's quote of the spec's §8 scenario: total 350, 5 days. -/
def qB : VendorQuote where
  id := 2
  vendor_id := 2
  vendor_rating := 3
  status := .submitted
  quote_number := some "QB-1"
  subtotal := 350
  tax_amount := 0
  total_amount := 350
  delivery_days := 5
  warranty_months := 6
  submitted_at := some 11

/-- The scenario RFQ holding vendor A's and vendor B's quotes, parametrized by
the selection rule. -/
def rfq_ab (rule : String) : RFQ where
  status := .quotes_received
  quotes := [qA, qB]
  quote_deadline := some 100
  selection_rule := rule
  max_delivery_days := 7
  selected_quote_id := none
  selected_at := none
  selected_by_id := none
  selection_reason := none

/-- A quote tying vendor D's on `total_amount` but slower; listed first. -/
def qC : VendorQuote :=
  { qA with id := 3, vendor_id := 3, vendor_rating := 5, delivery_days := 5 }

/-- A quote tying vendor C's on `total_amount` but faster; listed second. -/
def qD : VendorQuote :=
  { qA with id := 4, vendor_id := 4, vendor_rating := 1, delivery_days := 3 }

/-- An RFQ whose two quotes tie on the primary key of `cheapest_available`:
the secondary key (delivery days) must decide, against insertion order. -/
def rfq_tie : RFQ := { rfq_ab "cheapest_available" with quotes := [qC, qD] }

/-- A pending online payment over the scenario job's full balance. -/
def payW : Payment where
  payment_type := .full
  payment_method := .payment_link
  amount := 525
  status := .pending
  collected_by_id := none
  gateway_transaction_id := none
  paid_at := none
  notes := none

/-- A manual cash payment request of 450. -/
def pcW : PaymentCreate where
  amount := 450
  payment_type := .deposit
  payment_method := .cash
  notes := none

/-- An approved job awaiting payment with the scenario totals written out. -/
def jobW : JobCard :=
  { JobCard.booked with
    status := .awaiting_payment
    labour_total := 300
    parts_total := 200
    tax_amount := 25
    estimate_total := 525
    grand_total := 525
    balance_due := 525 }

/-- The result of selecting vendor A's quote on the scenario RFQ. -/
def selW : Except ApiError (RFQ × JobCard) :=
  select_quote (rfq_ab "cheapest_available") jobW 1 2 none 5

/-- The pair `selW` carries (its error fallback is never taken). -/
def selW_pair : RFQ × JobCard := selW.toOption.getD (rfq_ab "cheapest_available", jobW)

/-- The state after confirming `payW` against `jobW`. -/
def confW : Except ApiError PayState :=
  confirm_online_payment ⟨payW, jobW⟩ (some "txn-001") 5

/-- The state `confW` carries (its error fallback is never taken). -/
def confW_state : PayState := confW.toOption.getD ⟨payW, jobW⟩

/-- A payment already marked COMPLETED, paired with the scenario job. -/
def stCompleted : PayState := ⟨{ payW with status := .completed }, jobW⟩

/-- A job awaiting estimate approval whose estimate has no part line. -/
def jobNoParts : JobCard :=
  { JobCard.booked with
    status := .awaiting_estimate_approval
    estimate_items := [mk_estimate_item item_labour1] }

/-- The scenario job cancelled. -/
def jobCancelled : JobCard := { jobW with status := .cancelled }

/-- An RFQ sent to two vendors whose quote deadline (10) is already in the
past at submission time (100), both placeholder quotes still PENDING. -/
def rfq_late : RFQ :=
  { rfq_ab "cheapest_available" with
    status := .sent
    quote_deadline := some 10
    quotes := [{ qA with status := .pending }, { qB with status := .pending }] }

/-- A quote submission payload for the service-layer path. -/
def qsubW : QuoteSubmit where
  quote_number := some "VQ-9"
  line_items := [{ description := "Brake pads", quantity := 1, unit_price := 380, total := 380 }]
  delivery_days := 4
  warranty_months := 6

/-- A quote payload for the vendor-route path. -/
def qcW : QuoteCreate where
  items := [{ description := "Brake pads", quantity := 1, unit_price := 380 }]
  delivery_days := 4
  validity_days := 7
  total_amount := 380

/-- A successful `Except` computation equals `.ok` of the value its `Option`
view carries, whatever the fallback. -/
theorem except_eq_ok_getD {ε α : Type _} (e : Except ε α) (d : α)
    (h : e.toOption.isSome = true) : e = .ok (e.toOption.getD d) := by
  cases e with
  | ok a => rfl
  | error err => simp [Except.toOption] at h

/-- C1: for every job satisfying the ledger invariant, every mutating
operation — estimate creation, quote selection (when it succeeds), manual
payment recording, online payment confirmation (service path or webhook path)
— yields a job satisfying the ledger invariant again, and a freshly booked job
satisfies it; failing operations raise before writing, so the invariant holds
after every mutating operation. -/
theorem ledger_inv_after_mutations
    (job : JobCard) (data : EstimateCreate)
    (rfq rfq' : RFQ) (job' : JobCard) (quote_id user_id : Nat)
    (reason : Option String) (now : Nat)
    (staff_id : Nat) (pc : PaymentCreate)
    (p : Payment) (tx : Option String) (st' : PayState)
    (h : ledger_inv job)
    (hsel : select_quote rfq job quote_id user_id reason now = .ok (rfq', job'))
    (hconf : confirm_online_payment ⟨p, job⟩ tx now = .ok st') :
    ledger_inv JobCard.booked ∧
    ledger_inv (create_estimate job data) ∧
    ledger_inv job' ∧
    ledger_inv (record_cash_payment job staff_id pc now).2 ∧
    ledger_inv st'.job ∧
    ledger_inv (stripe_webhook_payment_succeeded ⟨p, job⟩ tx now).job := by
  refine ⟨⟨by norm_num [JobCard.booked], by norm_num [JobCard.booked]⟩, ?_, ?_, ?_, ?_, ?_⟩
  · simp only [ledger_inv, create_estimate]
    exact ⟨by ring_nf, trivial⟩
  · unfold select_quote at hsel
    split at hsel
    · exact Except.noConfusion hsel
    · split at hsel
      · exact Except.noConfusion hsel
      · simp only [Except.ok.injEq, Prod.mk.injEq] at hsel
        obtain ⟨-, hj⟩ := hsel
        subst hj
        exact ⟨rfl, rfl⟩
  · exact ⟨h.1, rfl⟩
  · unfold confirm_online_payment at hconf
    split at hconf
    · exact Except.noConfusion hconf
    · simp only [Except.ok.injEq] at hconf
      subst hconf
      exact ⟨h.1, rfl⟩
  · unfold stripe_webhook_payment_succeeded
    split
    · exact ⟨h.1, rfl⟩
    · exact h

/-- Witness for C1 at the scenario job, RFQ, and payment. -/
theorem ledger_inv_after_mutations_witness :
    (ledger_inv jobW ∧
     select_quote (rfq_ab "cheapest_available") jobW 1 2 none 5 = .ok selW_pair ∧
     confirm_online_payment ⟨payW, jobW⟩ (some "txn-001") 5 = .ok confW_state) ∧
    (ledger_inv JobCard.booked ∧
     ledger_inv (create_estimate jobW estimateW) ∧
     ledger_inv selW_pair.2 ∧
     ledger_inv (record_cash_payment jobW 3 pcW 5).2 ∧
     ledger_inv confW_state.job ∧
     ledger_inv (stripe_webhook_payment_succeeded ⟨payW, jobW⟩ (some "txn-001") 5).job) := by
  have h1 : ledger_inv jobW := by norm_num [ledger_inv, jobW, JobCard.booked]
  have h2 : select_quote (rfq_ab "cheapest_available") jobW 1 2 none 5 = .ok selW_pair :=
    except_eq_ok_getD _ _ (by decide)
  have h3 : confirm_online_payment ⟨payW, jobW⟩ (some "txn-001") 5 = .ok confW_state :=
    except_eq_ok_getD _ _ (by decide)
  exact ⟨⟨h1, h2, h3⟩,
    ledger_inv_after_mutations jobW estimateW (rfq_ab "cheapest_available")
      selW_pair.1 selW_pair.2 1 2 none 5 3 pcW payW (some "txn-001") confW_state
      h1 (by rw [h2]) h3⟩

/-- Counterexample to C2: a second confirmation of an already-COMPLETED
payment raises `400 "Payment already processed"` instead of returning the
existing payment. -/
theorem confirm_replay_raises_error :
    confirm_online_payment stCompleted (some "txn-001") 6 =
      .error (ApiError.badRequest "Payment already processed") := by
  decide

/-- C2 (amended): confirming a non-PENDING payment raises `400 "Payment
already processed"` (the job and payment are untouched because the service
raises before writing), and a duplicate webhook delivery for a non-PENDING
payment returns the state unchanged; a payment is applied exactly once — a
successful confirmation adds the amount to `amount_paid` once, after which
any webhook redelivery is a no-op and any re-confirmation raises. -/
theorem payment_confirmation_exactly_once
    (st : PayState) (tx tx2 : Option String) (now now2 : Nat) :
    (st.payment.status ≠ PaymentStatus.pending →
      confirm_online_payment st tx now =
        .error (ApiError.badRequest "Payment already processed") ∧
      stripe_webhook_payment_succeeded st tx now = st) ∧
    (∀ st', confirm_online_payment st tx now = .ok st' →
      st'.job.amount_paid = st.job.amount_paid + st.payment.amount ∧
      st'.payment.status = PaymentStatus.completed ∧
      stripe_webhook_payment_succeeded st' tx2 now2 = st' ∧
      confirm_online_payment st' tx2 now2 =
        .error (ApiError.badRequest "Payment already processed")) := by
  constructor
  · intro hne
    constructor
    · unfold confirm_online_payment
      rw [if_pos hne]
    · unfold stripe_webhook_payment_succeeded
      rw [if_neg hne]
  · intro st' hok
    unfold confirm_online_payment at hok
    split at hok
    · exact Except.noConfusion hok
    · simp only [Except.ok.injEq] at hok
      subst hok
      refine ⟨rfl, rfl, ?_, ?_⟩
      · unfold stripe_webhook_payment_succeeded
        rw [if_neg (fun h => PaymentStatus.noConfusion h)]
      · unfold confirm_online_payment
        simp

/-- Folding the running subtotal of `create_estimate` equals the accumulator
plus the sum of the line totals. -/
theorem foldl_add_total_price (l : List EstimateItem) (a : ℚ) :
    l.foldl (fun s i => s + i.total_price) a = a + (l.map (fun i => i.total_price)).sum := by
  induction l generalizing a with
  | nil => simp
  | cons x xs ih => simp [ih, add_assoc]

/-- Filtering built estimate rows by type equals building the rows of the
filtered request lines (`mk_estimate_item` preserves `item_type`). -/
theorem filter_mk_estimate_item (ty : String) (ds : List EstimateItemCreate) :
    (ds.map mk_estimate_item).filter (fun i => i.item_type == ty) =
      (ds.filter (fun d => d.item_type == ty)).map mk_estimate_item := by
  induction ds with
  | nil => rfl
  | cons d ds ih =>
    simp only [List.map_cons, List.filter_cons]
    cases h : (d.item_type == ty) <;> simp [mk_estimate_item, h, ih]

/-- The subtotal of one item type, as `create_estimate` accumulates it, is
the sum of `quantity * unit_price` over the request lines of that type. -/
theorem create_estimate_subtotal (ty : String) (ds : List EstimateItemCreate) :
    ((ds.map mk_estimate_item).filter (fun i => i.item_type == ty)).foldl
        (fun s i => s + i.total_price) 0 =
      ((ds.filter (fun d => d.item_type == ty)).map
        (fun d => d.quantity * d.unit_price)).sum := by
  rw [filter_mk_estimate_item, foldl_add_total_price, zero_add, List.map_map]
  rfl

/-- C7: `create_estimate` replaces the line items wholesale, accumulates the
labour and parts subtotals from `quantity * unit_price`, computes
`tax_amount = (labour + parts + delivery_fee) * tax_rate`, sets
`estimate_total`, `grand_total` and `balance_due` accordingly, advances a
DIAGNOSED job to AWAITING_ESTIMATE_APPROVAL (leaving any other status), and
on the scenario estimate (300 labour + 200 parts, 5% VAT) both
`estimate_total` and `grand_total` come to 525. -/
theorem create_estimate_spec (job : JobCard) (data : EstimateCreate) :
    (create_estimate job data).estimate_items = data.items.map mk_estimate_item ∧
    (create_estimate job data).labour_total =
      ((data.items.filter (fun d => d.item_type == "labour")).map
        (fun d => d.quantity * d.unit_price)).sum ∧
    (create_estimate job data).parts_total =
      ((data.items.filter (fun d => d.item_type == "part")).map
        (fun d => d.quantity * d.unit_price)).sum ∧
    (create_estimate job data).pickup_delivery_fee = data.pickup_delivery_fee ∧
    (create_estimate job data).tax_amount =
      ((create_estimate job data).labour_total + (create_estimate job data).parts_total +
        data.pickup_delivery_fee) * (data.tax_rate / 100) ∧
    (create_estimate job data).estimate_total =
      (create_estimate job data).labour_total + (create_estimate job data).parts_total +
        data.pickup_delivery_fee + (create_estimate job data).tax_amount ∧
    (create_estimate job data).grand_total =
      (create_estimate job data).estimate_total - job.discount_amount ∧
    (create_estimate job data).balance_due =
      (create_estimate job data).grand_total - job.amount_paid ∧
    (create_estimate job data).status =
      (if job.status = JobStatus.diagnosed then JobStatus.awaiting_estimate_approval
       else job.status) ∧
    (create_estimate jobDiagnosed estimateW).estimate_total = 525 ∧
    (create_estimate jobDiagnosed estimateW).grand_total = 525 := by
  refine ⟨rfl, create_estimate_subtotal "labour" data.items,
    create_estimate_subtotal "part" data.items, rfl, rfl, rfl, rfl, rfl, rfl, ?_, ?_⟩
  all_goals simp [create_estimate, estimateW, item_labour1, item_labour2, item_part1,
    mk_estimate_item, jobDiagnosed, JobCard.booked]
  all_goals norm_num

/-- Counterexample to C9: recording a cash payment against a CANCELLED job
still mutates it — `amount_paid` rises from 0 to 450, and a payment covering
the whole balance even moves the CANCELLED job to PAID. -/
theorem cancelled_job_still_mutated :
    jobCancelled.status = JobStatus.cancelled ∧
    jobCancelled.amount_paid = 0 ∧
    (record_cash_payment jobCancelled 3 pcW 8).2.amount_paid = 450 ∧
    (record_cash_payment jobCancelled 3 { pcW with amount := 525 } 8).2.status =
      JobStatus.paid := by
  refine ⟨rfl, rfl, ?_, ?_⟩ <;>
    norm_num [record_cash_payment, apply_payment_to_job, jobCancelled, jobW, pcW,
      JobCard.booked]

/-- C9 (amended): CANCELLED and CLOSED have no outgoing edges, so every
`update_status` attempt from them fails with the invalid-transition error and
the approval gates likewise refuse (all raise before writing, leaving the job
unchanged) — but `record_cash_payment` checks no status and still mutates a
CANCELLED job (see the counterexample). -/
theorem terminal_statuses_reject_operations (job : JobCard) (ns : JobStatus)
    (approved : Bool) (now : Nat)
    (h : job.status = JobStatus.cancelled ∨ job.status = JobStatus.closed) :
    get_valid_transitions JobStatus.cancelled = [] ∧
    get_valid_transitions JobStatus.closed = [] ∧
    update_status job ns now = .error (ApiError.badRequest
      ("Invalid status transition from " ++ job.status.val ++ " to " ++ ns.val)) ∧
    approve_estimate job approved now =
      .error (ApiError.badRequest "Job is not awaiting estimate approval") ∧
    approve_parts job approved now =
      .error (ApiError.badRequest "Job is not awaiting parts approval") := by
  refine ⟨rfl, rfl, ?_, ?_, ?_⟩
  · unfold update_status
    rcases h with h | h <;> rw [h] <;> rw [if_neg (by simp [get_valid_transitions])]
  · unfold approve_estimate
    rcases h with h | h <;> rw [if_pos (by simp [h])]
  · unfold approve_parts
    rcases h with h | h <;> rw [if_pos (by simp [h])]

/-- Witness for C9 at the cancelled scenario job. -/
theorem terminal_statuses_reject_operations_witness :
    (jobCancelled.status = JobStatus.cancelled ∨ jobCancelled.status = JobStatus.closed) ∧
    update_status jobCancelled JobStatus.paid 8 = .error (ApiError.badRequest
      ("Invalid status transition from " ++ jobCancelled.status.val ++ " to " ++
        JobStatus.paid.val)) ∧
    approve_estimate jobCancelled true 8 =
      .error (ApiError.badRequest "Job is not awaiting estimate approval") :=
  have h := terminal_statuses_reject_operations jobCancelled JobStatus.paid true 8
    (Or.inl rfl)
  ⟨Or.inl rfl, h.2.2.1, h.2.2.2.1⟩

/-- C10: a successful `select_quote` changes only `parts_total`,
`grand_total`, `balance_due` and `status` on the job: `tax_amount` (so the
stored tax still reflects the estimate-time parts total), `labour_total`,
`pickup_delivery_fee`, `discount_amount`, `amount_paid` and every other
embedded field are left unchanged. -/
theorem select_quote_frame (rfq rfq2 : RFQ) (job job2 : JobCard)
    (quote_id user_id : Nat) (reason : Option String) (now : Nat)
    (hok : select_quote rfq job quote_id user_id reason now = .ok (rfq2, job2)) :
    job2.tax_amount = job.tax_amount ∧
    job2.labour_total = job.labour_total ∧
    job2.pickup_delivery_fee = job.pickup_delivery_fee ∧
    job2.discount_amount = job.discount_amount ∧
    job2.amount_paid = job.amount_paid ∧
    job2.estimate_total = job.estimate_total ∧
    job2.estimate_items = job.estimate_items ∧
    job2.estimate_approved_at = job.estimate_approved_at ∧
    job2.parts_approved_at = job.parts_approved_at ∧
    job2.actual_pickup_time = job.actual_pickup_time ∧
    job2.actual_delivery_time = job.actual_delivery_time ∧
    job2.actual_completion_date = job.actual_completion_date ∧
    job2.updated_at = job.updated_at := by
  unfold select_quote at hok
  split at hok
  · exact Except.noConfusion hok
  · split at hok
    · exact Except.noConfusion hok
    · simp only [Except.ok.injEq, Prod.mk.injEq] at hok
      obtain ⟨-, hj⟩ := hok
      subst hj
      exact ⟨rfl, rfl, rfl, rfl, rfl, rfl, rfl, rfl, rfl, rfl, rfl, rfl, rfl⟩

/-- Witness for C10 at the scenario selection. -/
theorem select_quote_frame_witness :
    select_quote (rfq_ab "cheapest_available") jobW 1 2 none 5 =
      .ok (selW_pair.1, selW_pair.2) ∧
    selW_pair.2.tax_amount = jobW.tax_amount ∧
    selW_pair.2.labour_total = jobW.labour_total ∧
    selW_pair.2.amount_paid = jobW.amount_paid := by
  have hok : select_quote (rfq_ab "cheapest_available") jobW 1 2 none 5 =
      .ok (selW_pair.1, selW_pair.2) := by
    have h := except_eq_ok_getD (select_quote (rfq_ab "cheapest_available") jobW 1 2 none 5)
      (rfq_ab "cheapest_available", jobW) (by decide)
    simpa using h
  have h := select_quote_frame (rfq_ab "cheapest_available") selW_pair.1 jobW selW_pair.2
    1 2 none 5 hok
  exact ⟨hok, h.1, h.2.1, h.2.2.2.2.1⟩

/-- Reflexivity of the tuple-key comparison. -/
theorem pair_le_refl (a : ℚ × ℚ) : pair_le a a = true := by
  simp [pair_le]

/-- Transitivity of the tuple-key comparison. -/
theorem pair_le_trans {a b c : ℚ × ℚ} (h1 : pair_le a b = true)
    (h2 : pair_le b c = true) : pair_le a c = true := by
  simp only [pair_le, Bool.or_eq_true, Bool.and_eq_true, decide_eq_true_eq] at h1 h2 ⊢
  rcases h1 with h1 | ⟨h1, h1'⟩ <;> rcases h2 with h2 | ⟨h2, h2'⟩
  · exact Or.inl (lt_trans h1 h2)
  · exact Or.inl (h2 ▸ h1)
  · exact Or.inl (h1 ▸ h2)
  · exact Or.inr ⟨h1.trans h2, h1'.trans h2'⟩

/-- Totality of the tuple-key comparison. -/
theorem pair_le_total (a b : ℚ × ℚ) : pair_le a b = true ∨ pair_le b a = true := by
  simp only [pair_le, Bool.or_eq_true, Bool.and_eq_true, decide_eq_true_eq]
  rcases lt_trichotomy a.1 b.1 with h | h | h
  · exact Or.inl (Or.inl h)
  · rcases le_total a.2 b.2 with h2 | h2
    · exact Or.inl (Or.inr ⟨h, h2⟩)
    · exact Or.inr (Or.inr ⟨h.symm, h2⟩)
  · exact Or.inr (Or.inl h)

/-- The Bool tuple comparison agrees with the lexicographic order. -/
theorem pair_le_iff_lex (a b : ℚ × ℚ) : pair_le a b = true ↔ lex_le a b := by
  simp [pair_le, lex_le]

/-- Transitivity of any key-projected comparison. -/
theorem key_le_trans (k : VendorQuote → ℚ × ℚ) :
    ∀ a b c, pair_le (k a) (k b) = true → pair_le (k b) (k c) = true →
      pair_le (k a) (k c) = true :=
  fun _ _ _ h1 h2 => pair_le_trans h1 h2

/-- Totality of any key-projected comparison, in the form `mergeSort` wants. -/
theorem key_le_total (k : VendorQuote → ℚ × ℚ) :
    ∀ a b, (pair_le (k a) (k b) || pair_le (k b) (k a)) = true := by
  intro a b
  rcases pair_le_total (k a) (k b) with h | h <;> simp [h]

/-- The head of a merge sort by a transitive total Bool comparison is a member
of the list and compares below every member. -/
theorem head_mergeSort_min {le : VendorQuote → VendorQuote → Bool}
    (htrans : ∀ a b c, le a b = true → le b c = true → le a c = true)
    (htotal : ∀ a b, (le a b || le b a) = true)
    (l : List VendorQuote) (q : VendorQuote)
    (hq : (l.mergeSort le).head? = some q) :
    q ∈ l ∧ ∀ x ∈ l, le q x = true := by
  have hperm := List.mergeSort_perm l le
  have hs := List.sorted_mergeSort htrans htotal l
  cases hms : l.mergeSort le with
  | nil =>
    rw [hms] at hq
    exact Option.noConfusion hq
  | cons h t =>
    rw [hms] at hq hs hperm
    have hq' : h = q := by simpa using hq
    subst hq'
    constructor
    · exact hperm.mem_iff.mp (List.mem_cons_self h t)
    · intro x hx
      have hx' : x ∈ h :: t := hperm.symm.mem_iff.mp hx
      rcases List.mem_cons.mp hx' with rfl | hxt
      · simpa using htotal x x
      · exact (List.pairwise_cons.mp hs).1 x hxt

/-- The key of the `cheapest_available` rule. -/
theorem rule_key_cheapest (x : VendorQuote) :
    rule_key "cheapest_available" x = (x.total_amount, (x.delivery_days : ℚ)) := by
  simp [rule_key]

/-- The key of the `fastest` rule. -/
theorem rule_key_fastest (x : VendorQuote) :
    rule_key "fastest" x = ((x.delivery_days : ℚ), x.total_amount) := by
  simp [rule_key]

/-- The key of the `best_rated` rule. -/
theorem rule_key_best_rated (x : VendorQuote) :
    rule_key "best_rated" x = (-x.vendor_rating, x.total_amount) := by
  simp [rule_key]

/-- C8: `auto_select_quote` returns `none` when no SUBMITTED quote meets the
delivery constraint; under each declared policy a returned quote is an
eligible quote whose policy key is lexicographically minimal over all
eligible quotes (so ties on the primary key are broken by the declared
secondary key); on the scenario quotes (A: 400/3 days, B: 350/5 days)
`cheapest_available` picks B and `fastest` picks A, and on two quotes tying
on `total_amount` the later-listed but faster quote wins under
`cheapest_available` — not insertion order. -/
theorem auto_select_spec (rfq : RFQ) :
    (valid_quotes rfq = [] → auto_select_quote rfq = none) ∧
    ((rfq.selection_rule = "cheapest_available" ∨ rfq.selection_rule = "fastest" ∨
        rfq.selection_rule = "best_rated") →
      ∀ q, auto_select_quote rfq = some q →
        q ∈ valid_quotes rfq ∧
        ∀ q2 ∈ valid_quotes rfq,
          lex_le (rule_key rfq.selection_rule q) (rule_key rfq.selection_rule q2)) ∧
    auto_select_quote (rfq_ab "cheapest_available") = some qB ∧
    auto_select_quote (rfq_ab "fastest") = some qA ∧
    auto_select_quote rfq_tie = some qD := by
  refine ⟨?_, ?_, ?_, ?_, ?_⟩
  · intro hempty
    unfold auto_select_quote
    split
    · rfl
    · rw [hempty]
      split <;> simp
  · intro hrule q hq
    unfold auto_select_quote at hq
    split at hq
    · exact Option.noConfusion hq
    · rcases hrule with hr | hr | hr
      · rw [hr] at hq
        norm_num at hq
        obtain ⟨hmem, hmin⟩ := head_mergeSort_min
          (key_le_trans (fun x => (x.total_amount, (x.delivery_days : ℚ))))
          (key_le_total (fun x => (x.total_amount, (x.delivery_days : ℚ))))
          (valid_quotes rfq) q hq
        refine ⟨hmem, fun q2 hq2 => ?_⟩
        rw [hr, rule_key_cheapest, rule_key_cheapest]
        exact (pair_le_iff_lex _ _).mp (hmin q2 hq2)
      · rw [hr] at hq
        norm_num at hq
        obtain ⟨hmem, hmin⟩ := head_mergeSort_min
          (key_le_trans (fun x => ((x.delivery_days : ℚ), x.total_amount)))
          (key_le_total (fun x => ((x.delivery_days : ℚ), x.total_amount)))
          (valid_quotes rfq) q hq
        refine ⟨hmem, fun q2 hq2 => ?_⟩
        rw [hr, rule_key_fastest, rule_key_fastest]
        exact (pair_le_iff_lex _ _).mp (hmin q2 hq2)
      · rw [hr] at hq
        norm_num at hq
        obtain ⟨hmem, hmin⟩ := head_mergeSort_min
          (key_le_trans (fun x => (-x.vendor_rating, x.total_amount)))
          (key_le_total (fun x => (-x.vendor_rating, x.total_amount)))
          (valid_quotes rfq) q hq
        refine ⟨hmem, fun q2 hq2 => ?_⟩
        rw [hr, rule_key_best_rated, rule_key_best_rated]
        exact (pair_le_iff_lex _ _).mp (hmin q2 hq2)
  · simp [auto_select_quote, valid_quotes, rfq_ab, qA, qB, cheapest_le, pair_le,
      List.mergeSort, List.merge]
    norm_num
  · simp [auto_select_quote, valid_quotes, rfq_ab, qA, qB, fastest_le, pair_le,
      List.mergeSort, List.merge]
    norm_num
  · simp [auto_select_quote, valid_quotes, rfq_tie, rfq_ab, qA, qC, qD, cheapest_le,
      pair_le, List.mergeSort, List.merge]
    norm_num

/-- Counterexample to C3: approving an estimate with no part line moves the
job from AWAITING_ESTIMATE_APPROVAL straight to AWAITING_PAYMENT, an edge
absent from the static adjacency table. -/
theorem approve_estimate_leaves_adjacency :
    approve_estimate jobNoParts true 7 =
      .ok { jobNoParts with
        estimate_approved_at := some 7
        status := JobStatus.awaiting_payment } ∧
    JobStatus.awaiting_payment ∉
      get_valid_transitions JobStatus.awaiting_estimate_approval := by
  constructor
  · rfl
  · decide

/-- C3 (amended): `update_status` itself moves only along edges of the
adjacency table — a non-adjacent target yields the invalid-transition error
(the source raises before any write, so the job is unchanged) — but
status-changing operations with their own guards (`approve_estimate`,
`approve_parts`, payment application, `select_quote`) write the status
directly and can take edges absent from the table, such as
AWAITING_ESTIMATE_APPROVAL → AWAITING_PAYMENT. -/
theorem update_status_respects_adjacency (job : JobCard) (ns : JobStatus) (now : Nat) :
    (ns ∈ get_valid_transitions job.status →
      ∃ job2, update_status job ns now = .ok job2 ∧ job2.status = ns) ∧
    (ns ∉ get_valid_transitions job.status →
      update_status job ns now = .error (ApiError.badRequest
        ("Invalid status transition from " ++ job.status.val ++ " to " ++ ns.val))) := by
  constructor
  · intro hmem
    unfold update_status
    rw [if_pos hmem]
    refine ⟨_, rfl, ?_⟩
    dsimp only
    split
    · rfl
    · split
      · rfl
      · split <;> rfl
  · intro hnot
    unfold update_status
    rw [if_neg hnot]

/-- C5: `approve_estimate` fails (with the job unchanged) unless the status
is AWAITING_ESTIMATE_APPROVAL; rejection cancels the job; approval stamps
`estimate_approved_at` and advances to ESTIMATE_APPROVED when a part line
exists, else directly to AWAITING_PAYMENT; on the scenario estimate (which
has a part line) approval yields ESTIMATE_APPROVED. -/
theorem approve_estimate_spec (job : JobCard) (approved : Bool) (now : Nat) :
    (job.status ≠ JobStatus.awaiting_estimate_approval →
      approve_estimate job approved now =
        .error (ApiError.badRequest "Job is not awaiting estimate approval")) ∧
    (job.status = JobStatus.awaiting_estimate_approval →
      approve_estimate job false now = .ok { job with status := JobStatus.cancelled } ∧
      approve_estimate job true now = .ok { job with
        estimate_approved_at := some now
        status :=
          if job.estimate_items.any (fun i => i.item_type == "part")
          then JobStatus.estimate_approved
          else JobStatus.awaiting_payment }) ∧
    (approve_estimate jobQ true 7).toOption.map (fun j => j.status) =
      some JobStatus.estimate_approved := by
  refine ⟨?_, ?_, by decide⟩
  · intro hne
    unfold approve_estimate
    rw [if_pos hne]
  · intro heq
    constructor
    · unfold approve_estimate
      rw [if_neg (by simp [heq])]
      rfl
    · unfold approve_estimate
      rw [if_neg (by simp [heq])]
      rfl

/-- C6: a successful `select_quote` was called on an RFQ in SENT or
QUOTES_RECEIVED with a SUBMITTED target quote; it marks the chosen quote
SELECTED, turns every other SUBMITTED quote REJECTED while PENDING and
EXPIRED quotes pass through unchanged, records
`selected_quote_id`/`selected_at`/`selected_by` and RFQ status
QUOTE_SELECTED, copies the winning quote's `total_amount` into
`parts_total`, recomputes `grand_total` and `balance_due`, and advances the
job to AWAITING_PARTS_APPROVAL. -/
theorem select_quote_spec (rfq rfq2 : RFQ) (job job2 : JobCard)
    (quote_id user_id : Nat) (reason : Option String) (now : Nat) (sel : VendorQuote)
    (hfind : rfq.quotes.find?
      (fun q => q.id == quote_id && q.status == QuoteStatus.submitted) = some sel)
    (hok : select_quote rfq job quote_id user_id reason now = .ok (rfq2, job2)) :
    (rfq.status = RFQStatus.quotes_received ∨ rfq.status = RFQStatus.sent) ∧
    sel.status = QuoteStatus.submitted ∧
    rfq2.status = RFQStatus.quote_selected ∧
    rfq2.selected_quote_id = some quote_id ∧
    rfq2.selected_at = some now ∧
    rfq2.selected_by_id = some user_id ∧
    (∀ q ∈ rfq.quotes, q.id = quote_id →
      { q with status := QuoteStatus.selected } ∈ rfq2.quotes) ∧
    (∀ q ∈ rfq.quotes, q.id ≠ quote_id → q.status = QuoteStatus.submitted →
      { q with status := QuoteStatus.rejected } ∈ rfq2.quotes) ∧
    (∀ q ∈ rfq.quotes, q.id ≠ quote_id →
      (q.status = QuoteStatus.pending ∨ q.status = QuoteStatus.expired) →
      q ∈ rfq2.quotes) ∧
    job2.parts_total = sel.total_amount ∧
    job2.grand_total = job.labour_total + sel.total_amount + job.pickup_delivery_fee +
      job.tax_amount - job.discount_amount ∧
    job2.balance_due = job2.grand_total - job.amount_paid ∧
    job2.status = JobStatus.awaiting_parts_approval := by
  have hpred := List.find?_some hfind
  simp only [Bool.and_eq_true, beq_iff_eq] at hpred
  unfold select_quote at hok
  split at hok
  · exact Except.noConfusion hok
  · rename_i hstatus
    rw [hfind] at hok
    simp only [Except.ok.injEq, Prod.mk.injEq] at hok
    obtain ⟨hr, hj⟩ := hok
    subst hr
    subst hj
    refine ⟨?_, hpred.2, rfl, rfl, rfl, rfl, ?_, ?_, ?_, rfl, rfl, rfl, rfl⟩
    · by_cases h1 : rfq.status = RFQStatus.quotes_received
      · exact Or.inl h1
      · by_cases h2 : rfq.status = RFQStatus.sent
        · exact Or.inr h2
        · exact absurd ⟨h1, h2⟩ hstatus
    · intro q hq hid
      refine List.mem_map.mpr ⟨q, hq, ?_⟩
      rw [if_pos (by simp [hid])]
    · intro q hq hid hsub
      refine List.mem_map.mpr ⟨q, hq, ?_⟩
      rw [if_neg (by simp [hid]), if_pos (by simp [hsub])]
    · intro q hq hid hps
      refine List.mem_map.mpr ⟨q, hq, ?_⟩
      rw [if_neg (by simp [hid]), if_neg]
      rcases hps with h | h <;> simp [h]

/-- Witness for C6 at the scenario selection of vendor A's quote. -/
theorem select_quote_spec_witness :
    (rfq_ab "cheapest_available").quotes.find?
      (fun q => q.id == 1 && q.status == QuoteStatus.submitted) = some qA ∧
    select_quote (rfq_ab "cheapest_available") jobW 1 2 none 5 =
      .ok (selW_pair.1, selW_pair.2) ∧
    selW_pair.1.status = RFQStatus.quote_selected ∧
    selW_pair.2.parts_total = qA.total_amount ∧
    selW_pair.2.status = JobStatus.awaiting_parts_approval := by
  have hfind : (rfq_ab "cheapest_available").quotes.find?
      (fun q => q.id == 1 && q.status == QuoteStatus.submitted) = some qA := by decide
  have hok : select_quote (rfq_ab "cheapest_available") jobW 1 2 none 5 =
      .ok (selW_pair.1, selW_pair.2) := by
    have h := except_eq_ok_getD (select_quote (rfq_ab "cheapest_available") jobW 1 2 none 5)
      (rfq_ab "cheapest_available", jobW) (by decide)
    simpa using h
  have h := select_quote_spec (rfq_ab "cheapest_available") selW_pair.1 jobW selW_pair.2
    1 2 none 5 qA hfind hok
  exact ⟨hfind, hok, h.2.2.1, h.2.2.2.2.2.2.2.2.2.1, h.2.2.2.2.2.2.2.2.2.2.2.2⟩

/-- C4: contrary to the claim, the live service path `RFQService.submit_quote`
checks no deadline — a vendor's quote submitted at time 100 against an RFQ
whose deadline passed at 10 is accepted and marked SUBMITTED — while the
shadowed handler in `app/api/vendor.py` does reject the same submission with
`400 "RFQ deadline has passed"`. -/
theorem submit_quote_ignores_deadline :
    rfq_late.quote_deadline = some 10 ∧
    (submit_quote rfq_late jobW 1 qsubW 100).toOption.map (fun r => r.1.status) =
      some QuoteStatus.submitted ∧
    api_vendor_submit_quote rfq_late 3 4 99 qcW 100 =
      .error (ApiError.badRequest "RFQ deadline has passed") := by
  refine ⟨rfl, ?_, ?_⟩ <;> decide
